import Mathlib

/-!
Shallow embedding of the `_bleio` implementation of Adafruit_Blinka_bleio
(src/_bleio/uuid_.py, address.py, scan_entry.py, adapter_.py), together with
theorems checking the repository's natural-language specification against it.

Python byte values are modelled as `Nat` (each < 256 on real data), byte
strings as `List Nat`, text strings as `List Char`, and fallible Python code
as `Except PyErr`.
-/

namespace Bleio

/-- Python exception classes relevant to the embedded code. -/
inductive PyErr where
  | valueError
  | typeError
  | indexError
  | notImplementedError
  | environmentError
  | unboundLocalError
  | runtimeError
  deriving DecidableEq, Repr

abbrev Byte := Nat

/-- Clamp an (possibly negative) Python slice index to `[0, len]`,
as Python slicing does. -/
def pyIdx (len : Nat) (i : Int) : Nat :=
  if i < 0 then ((len : Int) + i).toNat else min i.toNat len

/-- Python slice `s[a:b]` (Python semantics: negative indices count from the
end, out-of-range indices clamp, and `b ≤ a` yields the empty list). -/
def pySlice (s : List α) (a b : Int) : List α :=
  (s.take (pyIdx s.length b)).drop (pyIdx s.length a)

/-- Python slice assignment `s[i:j] = v` on a mutable sequence: the elements
of the (clamped) slice are replaced by `v`; when the slice is empty this is
an insertion at position `i` and the sequence changes length. -/
def pySetSlice (l : List α) (i j : Nat) (v : List α) : List α :=
  let i' := min i l.length
  let j' := min j l.length
  l.take i' ++ v ++ l.drop (max i' j')

def isPySpace (c : Char) : Bool :=
  c == ' ' || c == '\t' || c == '\n' || c == '\r' || c == '\x0b' || c == '\x0c'

def isHexDigitChar (c : Char) : Bool :=
  c.isDigit || (decide ('a' ≤ c) && decide (c ≤ 'f'))
    || (decide ('A' ≤ c) && decide (c ≤ 'F'))

def hexVal (c : Char) : Nat :=
  if c.isDigit then c.toNat - 48
  else if decide ('a' ≤ c) && decide (c ≤ 'f') then c.toNat - 87
  else c.toNat - 55

/-- Value of a string of hex digits (most significant first); callers ensure
every character is a hex digit. -/
def parseHexDigits (s : List Char) : Nat :=
  s.foldl (fun a c => 16 * a + hexVal c) 0

def stripPySpaces (s : List Char) : List Char :=
  ((s.dropWhile isPySpace).reverse.dropWhile isPySpace).reverse

/-- Python `int(s, 16)`: surrounding whitespace is allowed; the remainder
must be a nonempty run of hex digits, else `ValueError`.
(Signs and `0x` prefixes never occur on the embedded call sites.) -/
def pyIntHex (s : List Char) : Except PyErr Nat :=
  let t := stripPySpaces s
  if !t.isEmpty && t.all isHexDigitChar then .ok (parseHexDigits t)
  else .error .valueError

/-- Python `bytes.fromhex`: hex digit pairs, whitespace allowed between pairs
(but not inside a pair); anything else is a `ValueError`. -/
def bytesFromHex : List Char → Except PyErr (List Byte)
  | [] => .ok []
  | [c] => if isPySpace c then .ok [] else .error .valueError
  | c :: d :: rest =>
    if isPySpace c then bytesFromHex (d :: rest)
    else if isHexDigitChar c && isHexDigitChar d then
      (bytesFromHex rest).map fun bs => (16 * hexVal c + hexVal d) :: bs
    else .error .valueError

/-! ## UUID (src/_bleio/uuid_.py) -/

/-- `_BASE_STANDARD_UUID` from uuid_.py. -/
def BASE_STANDARD_UUID : List Byte :=
  [0xFB, 0x34, 0x9B, 0x5F, 0x80, 0x00, 0x00, 0x80,
   0x00, 0x10, 0x00, 0x00, 0x00, 0x00, 0x00, 0x00]

/-- Little-endian encoding `v.to_bytes(n, "little")`. -/
def toBytesLE (n : Nat) (v : Nat) : List Byte :=
  (List.range n).map fun i => v / 256 ^ i % 256

/-- `int.from_bytes(bs, "little")`. -/
def fromBytesLE (bs : List Byte) : Nat :=
  bs.foldr (fun b acc => acc * 256 + b) 0

/-- `UUID.standard_uuid128_from_uuid32`: base standard UUID with the 32-bit
value spliced into the last four (little-endian) bytes; raises `ValueError`
unless `0 <= uuid32 < 2**32`. -/
def standard_uuid128_from_uuid32 (uuid32 : Int) : Except PyErr (List Byte) :=
  if 0 ≤ uuid32 ∧ uuid32 < 2 ^ 32 then
    .ok (BASE_STANDARD_UUID.take 12 ++ toBytesLE 4 uuid32.toNat)
  else .error .valueError

/-- `_UUID_RE`: 8-4-4-4-12 hex digits separated by hyphens
(`x` marks a hex-digit position, `-` a literal hyphen). -/
def UUID_PAT : List Char := "xxxxxxxx-xxxx-xxxx-xxxx-xxxxxxxxxxxx".data

/-- `_STANDARD_UUID_RE_16` (case-insensitive; `.` matches any character). -/
def STD16_PAT : List Char := "0000....-0000-1000-8000-00805f9b34fb".data

/-- `_STANDARD_UUID_RE_32` (case-insensitive; `.` matches any character). -/
def STD32_PAT : List Char := "........-0000-1000-8000-00805f9b34fb".data

/-- Full match against `UUID_PAT`. -/
def uuidPatternMatch (s : List Char) : Bool :=
  UUID_PAT.length == s.length &&
    (UUID_PAT.zip s).all fun pc =>
      if pc.1 == 'x' then isHexDigitChar pc.2 else pc.1 == pc.2

/-- Full match against a lowercase literal pattern with `.` wildcards,
case-insensitively (models `re.IGNORECASE`). -/
def dotPatternMatch (pat s : List Char) : Bool :=
  pat.length == s.length &&
    (pat.zip s).all fun pc => pc.1 == '.' || pc.1 == pc.2.toLower

/-- `_STANDARD_HEX_UUID_RE` full match: 1 to 8 hex digits. -/
def stdHexMatch (s : List Char) : Bool :=
  1 ≤ s.length && s.length ≤ 8 && s.all isHexDigitChar

/-- `UUID._init_from_str`. Returns `(uuid128, size)`. Inside the branches the
sliced characters are hex digits by the regex guards, so Python's
`int(..., 16)` is `parseHexDigits` there. -/
def uuid_init_from_str (s : List Char) : Except PyErr (List Byte × Nat) :=
  if uuidPatternMatch s then
    if dotPatternMatch STD16_PAT s then
      (standard_uuid128_from_uuid32 (parseHexDigits (pySlice s 4 8))).map (·, 16)
    else if dotPatternMatch STD32_PAT s then
      (standard_uuid128_from_uuid32 (parseHexDigits (pySlice s 0 8))).map (·, 32)
    else
      -- uuid128 = bytes(int(uuid[i:i+2], 16) for i in range(30, -1, -2))
      let h := s.filter (fun c => c != '-')
      .ok (((List.range 16).map fun k =>
        parseHexDigits (pySlice h (30 - 2 * (k : Int)) (32 - 2 * (k : Int)))), 128)
  else if stdHexMatch s && (s.length == 4 || s.length == 8) then
    (standard_uuid128_from_uuid32 (parseHexDigits s)).map (·, s.length * 4)
  else .error .valueError

/-- `UUID._init_from_int`. The source assigns `size = 16` under
`if uuid <= 2**16` and then assigns `size = 32` under a second (not `elif`)
`if uuid <= 2**32`; the sequential overwriting is modelled exactly.
`UnboundLocalError` stands for `size` never being assigned. -/
def uuid_init_from_int (uuid : Int) : Except PyErr (List Byte × Nat) :=
  if ¬(0 ≤ uuid ∧ uuid ≤ 2 ^ 32) then .error .valueError
  else
    let size1 : Option Nat := if uuid ≤ 2 ^ 16 then some 16 else none
    let size2 : Option Nat := if uuid ≤ 2 ^ 32 then some 32 else size1
    match size2 with
    | none => .error .unboundLocalError
    | some sz => (standard_uuid128_from_uuid32 uuid).map (·, sz)

/-- `UUID._init_from_buf`: the buffer must be exactly 16 bytes; size 128. -/
def uuid_init_from_buf (bs : List Byte) : Except PyErr (List Byte × Nat) :=
  if bs.length == 16 then .ok (bs, 128) else .error .valueError

/-- The state of a constructed `UUID` object. -/
structure UUIDState where
  uuid128 : List Byte
  size : Nat
  deriving DecidableEq, Repr

/-- `uuid16` value extraction: `int.from_bytes(self._uuid128[12:14], "little")`
(the property's size guard is established at the call sites below). -/
def uuid16_raw (u : UUIDState) : Nat :=
  fromBytesLE ((u.uuid128.drop 12).take 2)

/-- `uuid32` value extraction: `int.from_bytes(self._uuid128[12:], "little")`. -/
def uuid32_raw (u : UUIDState) : Nat :=
  fromBytesLE (u.uuid128.drop 12)

/-- `UUID.__eq__`: equal only when both sides are in the same size class, in
which case that size's short/full value is compared; otherwise `False`. -/
def uuid_eq (a b : UUIDState) : Bool :=
  if a.size == 16 && b.size == 16 then uuid16_raw a == uuid16_raw b
  else if a.size == 32 && b.size == 32 then uuid32_raw a == uuid32_raw b
  else if a.size == 128 && b.size == 128 then a.uuid128 == b.uuid128
  else false

/-- `UUID.is_standard_uuid`. -/
def uuid_is_standard (u : UUIDState) : Bool :=
  u.size == 16 || u.size == 32 ||
    (u.uuid128.take 12 == BASE_STANDARD_UUID.take 12 &&
     u.uuid128.drop 14 == BASE_STANDARD_UUID.drop 14)

/-- `UUID.pack_into(buffer, offset)`. The destination-size check uses
`len(buffer) - offset < byte_size` (Python int subtraction); the write is a
slice assignment to `buffer[offset:byte_size]`, exactly as in the source. -/
def pack_into (u : UUIDState) (buffer : List Byte) (offset : Nat) :
    Except PyErr (List Byte) :=
  let byte_size := u.size / 8
  if (buffer.length : Int) - (offset : Int) < (byte_size : Int) then
    .error .indexError
  else
    let enc :=
      if u.size == 16 then (u.uuid128.drop 12).take 2
      else if u.size == 32 then u.uuid128.drop 12
      else u.uuid128
    .ok (pySetSlice buffer offset byte_size enc)

/-! ## Address (src/_bleio/address.py) -/

/-- Truthiness of an optional Python sequence: `None` and empty are falsy. -/
def pyTruthy : Option (List α) → Bool
  | none => false
  | some l => !l.isEmpty

/-- The state of a constructed `Address`: exactly one of the raw bytes or the
string form is present after construction (`type` is the address-type tag). -/
structure AddressState where
  addressBytes : Option (List Byte)
  string : Option (List Char)
  type : Nat
  deriving DecidableEq, Repr

/-- `Address(address=buf, address_type=t)`: a falsy buffer trips the
"supply address or string" check; the buffer must be 6 bytes; the type must
be in range `PUBLIC..RANDOM_PRIVATE_NON_RESOLVABLE` (0..3). -/
def addressFromBytes (bs : List Byte) (t : Nat) : Except PyErr AddressState :=
  if bs.isEmpty then .error .valueError
  else if bs.length != 6 then .error .valueError
  else if t ≤ 3 then .ok ⟨some bs, none, t⟩
  else .error .valueError

/-- `Address(string=s, address_type=t)`: a falsy (empty) string trips the
"supply address or string" check; the type must be in range 0..3. -/
def addressFromString (s : List Char) (t : Nat) : Except PyErr AddressState :=
  if s.isEmpty then .error .valueError
  else if t ≤ 3 then .ok ⟨none, some s, t⟩
  else .error .valueError

/-- `_MAC_ADDRESS_RE` full match: six pairs of hex digits separated by `:`
or `-` (17 characters; separators may be mixed). -/
def macMatch (s : List Char) : Bool :=
  s.length == 17 &&
    (List.range 17).all fun i =>
      if i % 3 == 2 then s.getD i ' ' == ':' || s.getD i ' ' == '-'
      else isHexDigitChar (s.getD i ' ')

/-- The six two-hex-digit groups of a matched MAC string. -/
def macGroups (s : List Char) : List (List Char) :=
  (List.range 6).map fun k => pySlice s (3 * (k : Int)) (3 * (k : Int) + 2)

/-- `Address.address_bytes`: stored bytes if present, else parse the string
as a MAC (bytes reversed); a non-MAC string raises `ValueError`. The final
`ValueError` also stands for the (constructor-unreachable) state with
neither representation. -/
def address_bytes_prop (a : AddressState) : Except PyErr (List Byte) :=
  match a.addressBytes with
  | some bs => .ok bs
  | none =>
    match a.string with
    | some s =>
      if macMatch s then .ok ((macGroups s).reverse.map parseHexDigits)
      else .error .valueError
    | none => .error .valueError

/-- Lowercase hex rendering `"{:02x}".format(b)` of a byte. -/
def hexByteChars (b : Byte) : List Char :=
  let dig (n : Nat) : Char := if n < 10 then Char.ofNat (48 + n) else Char.ofNat (87 + n)
  [dig (b / 16 % 16), dig (b % 16)]

/-- `Address.string`: the stored string, or (when falsy) the colon-joined
lowercase hex of the reversed address bytes. -/
def string_prop (a : AddressState) : Except PyErr (List Char) :=
  if pyTruthy a.string then .ok (a.string.getD [])
  else
    (address_bytes_prop a).map fun bs =>
      (((bs.reverse.map hexByteChars).intersperse [':']).flatten)

/-- `Address.__eq__` against another `Address`: unequal types compare
`False`; with raw bytes present both sides' `address_bytes` are compared
(which may raise while parsing the other side's string); otherwise the raw
`_string` attributes are compared (`None` compares unequal); a bytes-less,
string-less receiver falls through to `False`. -/
def address_eq (a b : AddressState) : Except PyErr Bool :=
  if a.type != b.type then .ok false
  else if pyTruthy a.addressBytes then
    (address_bytes_prop a).bind fun x =>
      (address_bytes_prop b).map fun y => x == y
  else if pyTruthy a.string then .ok (decide (a.string = b.string))
  else .ok false

/-! ## ScanEntry (src/_bleio/scan_entry.py) -/

/-- The state of a constructed `ScanEntry`. Advertisement content is carried
either as raw bytes or as a decoded data dictionary (type byte → value). -/
structure ScanEntryState where
  address : AddressState
  rssi : Int
  advertisementBytes : Option (List Byte)
  connectable : Bool
  scanResponse : Bool
  dataDict : List (Nat × List Byte)
  deriving DecidableEq, Repr

/-- The length-prefix walk shared by `ScanEntry._separate_prefixes` and
`ScanEntry._advertisement_fields`: read a length byte `len`, take the next
`len` bytes as a record (Python slicing truncates a record that overruns
the buffer), continue after it. Structured with explicit fuel so that it
computes by kernel reduction; every iteration consumes at least the length
byte itself, so fuel equal to the list length always suffices. -/
def tlvWalk : Nat → List Byte → List (List Byte)
  | 0, _ => []
  | _, [] => []
  | fuel + 1, len :: rest => rest.take len :: tlvWalk fuel (rest.drop len)

/-- `ScanEntry._separate_prefixes`: split a concatenated
`[len][bytes...]`-structured byte string into the individual records. -/
def separate_prefixes (l : List Byte) : List (List Byte) :=
  tlvWalk l.length l

/-- The parsing loop of `ScanEntry._advertisement_fields` over raw
advertisement bytes (the same walk as `_separate_prefixes`). -/
def parse_adv_fields (l : List Byte) : List (List Byte) :=
  tlvWalk l.length l

/-- `ScanEntry._advertisement_fields`: fields from the raw bytes when
present (`is not None`), else `[type byte] + value` for each data-dict
entry. -/
def advertisement_fields (e : ScanEntryState) : List (List Byte) :=
  match e.advertisementBytes with
  | some b => parse_adv_fields b
  | none => e.dataDict.map fun td => td.1 :: td.2

/-- The per-prefix loop of `ScanEntry.matches`: for each prefix record,
`match_all=False` returns `True` at the first field match, `match_all=True`
returns `False` at the first unmatched record; the exhausted loop returns
`match_all`. -/
def matchesLoop (fields : List (List Byte)) (match_all : Bool) :
    List (List Byte) → Bool
  | [] => match_all
  | p :: ps =>
    if fields.any fun f => p.isPrefixOf f then
      if !match_all then true else matchesLoop fields match_all ps
    else
      if match_all then false else matchesLoop fields match_all ps

/-- `ScanEntry.matches(prefixes, match_all)`. -/
def scan_matches (e : ScanEntryState) (prefixes : List Byte)
    (match_all : Bool) : Bool :=
  if prefixes.length == 0 then true
  else matchesLoop (advertisement_fields e) match_all (separate_prefixes prefixes)

/-- Whether some advertisement field of `e` starts with the prefix `p`
(the inner loop condition of `ScanEntry.matches`). -/
def prefixMatched (e : ScanEntryState) (p : List Byte) : Bool :=
  (advertisement_fields e).any fun f => p.isPrefixOf f

/-! ## Raw HCI packet parsing (Adapter._parse_hcidump_data) -/

/-- The controller-to-host LE-meta-event signature `b"> 04 3E"`. -/
def HCIDUMP_SIG : List Char := "> 04 3E".data

/-- The signed-byte RSSI conversion of `_parse_hcidump_data`:
`if rssi > 127: rssi = (256 - rssi) * -1`. -/
def hci_signed_rssi (r : Nat) : Int :=
  if r > 127 then (256 - (r : Int)) * (-1) else (r : Int)

/-- Apply `f` to the last element of a list (`lines[-1] = f(lines[-1])`). -/
def mapLast (f : α → α) : List α → List α
  | [] => []
  | [x] => [f x]
  | x :: y :: xs => x :: mapLast f (y :: xs)

/-- `Adapter._parse_hcidump_data(buffered, prefixes, minimum_rssi, active)`.

Translated control flow, in source order: signature check on the first line;
subevent code from chars 11..13 (non-`0x02` falls through to the final
`return None`); report count from chars 14..16 (`> 1` raises
`NotImplementedError`); RSSI from the last line's chars `[-4:-2]`, signed,
with `127` or below-threshold packets returning `None`; event type
(chars 17..19, `0x04` without `active` returns `None`); address type
(chars 20..22, taken mod 2) and address bytes (chars 23..40); then the first
line is cut at 43 and the last line loses its final 4 characters and the
joined remainder is hex-decoded as the advertisement payload.

The source then evaluates `scan_entry.matches(prefixes, all=False)`, but the
`matches` method's signature names that parameter `match_all`, so this call
raises `TypeError` before any entry can be returned. -/
def parse_hcidump_data (buffered : List (List Char)) (prefixes : List Byte)
    (minimum_rssi : Int) (active : Bool) : Except PyErr (Option ScanEntryState) :=
  match buffered with
  | [] => .error .indexError
  | b0 :: rest =>
    if HCIDUMP_SIG.isPrefixOf b0 then do
      let subevent_code ← pyIntHex (pySlice b0 11 13)
      if subevent_code == 2 then do
        let num_reports ← pyIntHex (pySlice b0 14 16)
        if num_reports > 1 then .error .notImplementedError else do
        let lastLine := (b0 :: rest).getLast (List.cons_ne_nil b0 rest)
        let rssiByte ← pyIntHex (pySlice lastLine (-4) (-2))
        let rssi := hci_signed_rssi rssiByte
        if rssi == 127 || rssi < minimum_rssi then .ok none else do
        let event_type ← pyIntHex (pySlice b0 17 19)
        if event_type == 4 && !active then .ok none else do
        let address_type ← pyIntHex (pySlice b0 20 22)
        let addrBytes ← bytesFromHex (pySlice b0 23 40)
        let address ← addressFromBytes addrBytes (address_type % 2)
        let cut := mapLast (fun l => pySlice l 0 (-4))
          (pySlice b0 43 (b0.length : Int) :: rest)
        let data ← bytesFromHex cut.flatten
        let _scan_entry : ScanEntryState :=
          { address := address, rssi := rssi, advertisementBytes := some data,
            connectable := event_type < 2, scanResponse := event_type == 4,
            dataDict := [] }
        -- scan_entry.matches(prefixes, all=False): unexpected keyword `all`.
        let _ := prefixes
        .error .typeError
      else .ok none
    else .ok none

/-! ## Adapter device cache and connect (src/_bleio/adapter_.py) -/

/-- A bleak `BLEDevice` as the cache stores it: its `address` is a string. -/
structure BLEDevice where
  addressStr : List Char
  deriving DecidableEq, Repr

/-- A Python dictionary key as used around `_cached_devices`: the cache is
populated with the bleak device's address *string*, but probed with a
`_bleio.Address` object. -/
inductive PyKey where
  | str (s : List Char)
  | addr (a : AddressState)
  deriving DecidableEq, Repr

/-- Python `==` between two cache keys: `str == str` compares characters;
`Address == Address` runs `Address.__eq__`; a `str`/`Address` mixed pair is
unequal (`Address.__eq__` requires `isinstance(other, Address)`, and
`str.__eq__` returns `NotImplemented` against an `Address`). -/
def pyKeyEq (k1 k2 : PyKey) : Except PyErr Bool :=
  match k1, k2 with
  | .str s, .str t => .ok (s == t)
  | .addr a, .addr b => address_eq a b
  | _, _ => .ok false

abbrev DeviceCache := List (PyKey × BLEDevice)

/-- `self._cached_devices[device.address] = device` for a string key:
replace the value of an equal key, else append. -/
def dictSetStr : DeviceCache → List Char → BLEDevice → DeviceCache
  | [], s, d => [(.str s, d)]
  | (k, v) :: rest, s, d =>
    if k == .str s then (.str s, d) :: rest else (k, v) :: dictSetStr rest s d

/-- `Adapter._cache_device(device)`. -/
def cache_device (cache : DeviceCache) (d : BLEDevice) : DeviceCache :=
  dictSetStr cache d.addressStr d

/-- `dict.get(k)`: the value of the first key equal to `k`, else `None`. -/
def dictGet (cache : DeviceCache) (k : PyKey) : Except PyErr (Option BLEDevice) :=
  match cache with
  | [] => .ok none
  | (k', v) :: rest => do
    let b ← pyKeyEq k k'
    if b then .ok (some v) else dictGet rest k

/-- `Adapter._cached_device(address)`: `self._cached_devices.get(address)`
with `address` a `_bleio.Address` object. -/
def cached_device (cache : DeviceCache) (a : AddressState) :
    Except PyErr (Option BLEDevice) :=
  dictGet cache (.addr a)

/-- The cache as `start_scan` builds it: cleared, then each scanned device
stored via `_cache_device`. -/
def scanCache (devs : List BLEDevice) : DeviceCache :=
  devs.foldl cache_device []

/-- The argument handed to `BleakClient` by `Adapter._connect_async`. -/
inductive BleakClientArg where
  | device (d : BLEDevice)
  | addrString (s : List Char)
  deriving DecidableEq, Repr

/-- `Adapter._connect_async`'s client construction:
`BleakClient(device if device else address._bleak_address)`, where
`_bleak_address` is `Address.string`. -/
def connect_client_arg (cache : DeviceCache) (a : AddressState) :
    Except PyErr BleakClientArg := do
  let dev ← cached_device cache a
  match dev with
  | some d => .ok (.device d)
  | none => (string_prop a).map .addrString

/-! ## Adapter scan state (stop_scan / _use_hcitool) -/

/-- The external facts `_use_hcitool`'s probe depends on:
`platform.system() == "Linux"` and whether the no-op `hcitool cmd` probe
succeeds. -/
structure Env where
  isLinux : Bool
  probeOk : Bool
  deriving DecidableEq, Repr

/-- A child process handle (`subprocess.Popen`), reduced to its
`returncode`. -/
structure HciProc where
  returncode : Option Int
  deriving DecidableEq, Repr

/-- The Adapter attributes read and written by `stop_scan` and
`_use_hcitool`. -/
structure AdapterScanState where
  hcitoolIsUsable : Option Bool
  bleBackend : Option (List Char)
  hcitool : Option HciProc
  scanningInProgress : Bool
  scanner : Bool
  deriving DecidableEq, Repr

/-- `Adapter._use_hcitool`: on first evaluation, probe (Linux only), cache
the result, then apply the `ble_backend` override — `"bleak"` forces
`False`, `"hcitool"` raises `EnvironmentError` when the probe failed, and
any other truthy setting raises `ValueError`. Later evaluations return the
cached value. Returns the value together with the updated state. -/
def use_hcitool (env : Env) (s : AdapterScanState) :
    Except PyErr (Bool × AdapterScanState) :=
  match s.hcitoolIsUsable with
  | some b => .ok (b, s)
  | none =>
    let u0 := env.isLinux && env.probeOk
    let s1 := { s with hcitoolIsUsable := some u0 }
    if pyTruthy s1.bleBackend then
      if s1.bleBackend = some "bleak".data then
        .ok (false, { s1 with hcitoolIsUsable := some false })
      else if s1.bleBackend = some "hcitool".data then
        if !u0 then .error .environmentError else .ok (u0, s1)
      else .error .valueError
    else .ok (u0, s1)

/-- `Adapter.stop_scan()`: when `_use_hcitool` holds and an `hcitool` child
process exists, interrupt and reap it and clear the handle; then clear the
scanning-in-progress flag and the scanner. -/
def stop_scan (env : Env) (s : AdapterScanState) :
    Except PyErr AdapterScanState := do
  let (uh, s1) ← use_hcitool env s
  let s2 := if uh && s1.hcitool.isSome then { s1 with hcitool := none } else s1
  .ok { s2 with scanningInProgress := false, scanner := false }

/-! ## Adapter.connections (snapshot semantics) -/

/-- The cell contents of the Adapter's `_connections` list object
(connections identified by an id). -/
abbrev ConnHeap := List Nat

/-- What the `connections` property could hand back: an immutable tuple of
the current values, or an alias of the live list object. -/
inductive ConnectionsValue where
  | tupleVal (xs : List Nat)
  | listRef
  deriving DecidableEq, Repr

/-- `Adapter.connections` returns `tuple(self._connections)`: a fresh
immutable tuple holding the list's current values. -/
def connections_property (heap : ConnHeap) : ConnectionsValue :=
  .tupleVal heap

/-- The connection list observed through a `connections` result, against the
current state of the `_connections` list object. -/
def derefConnections (heap : ConnHeap) : ConnectionsValue → List Nat
  | .tupleVal xs => xs
  | .listRef => heap

/-- `list.remove(x)`: drop the first occurrence (Python raises `ValueError`
when absent; `delete_connection` only removes connections that are
present). -/
def pyListRemove : ConnHeap → Nat → ConnHeap
  | [], _ => []
  | x :: xs, c => if x == c then xs else x :: pyListRemove xs c

/-- The Adapter operations that mutate `_connections`:
`_connect_async` appends, `delete_connection` removes. -/
inductive ConnOp where
  | connect (c : Nat)
  | delete (c : Nat)
  deriving DecidableEq, Repr

def applyConnOp (heap : ConnHeap) : ConnOp → ConnHeap
  | .connect c => heap ++ [c]
  | .delete c => pyListRemove heap c

def applyConnOps (ops : List ConnOp) (heap : ConnHeap) : ConnHeap :=
  ops.foldl applyConnOp heap

/-- All keys of a device cache are plain strings (as `_cache_device` always
stores them). -/
def allStrKeys (cache : DeviceCache) : Prop :=
  ∀ kv ∈ cache, ∃ s, kv.1 = PyKey.str s

/-!
Concrete captured hcidump lines for the parser theorems. Layout of the
first line (character positions): `> ` (0..1), packet type `04` (2..3),
event code `3E` (5..6), total length (8..9), subevent code (11..12),
report count (14..15), event type (17..18), address type (20..21),
address bytes (23..39), data length (41..42), advertisement data,
RSSI byte, trailing space and newline.
-/

/-- Single-report advertising event (subevent `02`), RSSI byte `9A`. -/
def pktSubevent02rssi9A : List Char :=
  "> 04 3E 12 02 01 00 01 AA BB CC DD EE FF 03 02 01 06 9A \n".data

/-- The same event with subevent code `03` (not an advertising report). -/
def pktSubevent03 : List Char :=
  "> 04 3E 12 03 01 00 01 AA BB CC DD EE FF 03 02 01 06 9A \n".data

/-- The same event with a report count of 2 (packed multi-report). -/
def pktMultiReport : List Char :=
  "> 04 3E 12 02 02 00 01 AA BB CC DD EE FF 03 02 01 06 9A \n".data

/-- The same event with RSSI byte `7F` (127, BLE's "unavailable"). -/
def pktRssi7F : List Char :=
  "> 04 3E 12 02 01 00 01 AA BB CC DD EE FF 03 02 01 06 7F \n".data

/-! ## Theorems -/

/-- Monadic bind on a successful `Except` computation. -/
theorem except_bind_ok (a : α) (f : α → Except PyErr β) :
    (Except.ok a >>= f) = f a := rfl

/-- Monadic bind on a failed `Except` computation. -/
theorem except_bind_err (e : PyErr) (f : α → Except PyErr β) :
    ((Except.error e : Except PyErr α) >>= f) = Except.error e := rfl

/-- C1: for every ScanEntry and every concatenated prefix set splitting into
exactly two prefix records of which exactly one matches some advertisement
field of the entry, `matches` with `match_all=True` returns `False` and with
`match_all=False` returns `True`; and for every ScanEntry, `matches` with an
empty prefix set returns `True` in both modes. -/
theorem scan_matches_two_prefix_records
    (e e' : ScanEntryState) (prefixes p1 p2 : List Byte) (b : Bool)
    (hsep : separate_prefixes prefixes = [p1, p2])
    (hone : prefixMatched e p1 ≠ prefixMatched e p2) :
    scan_matches e prefixes true = false ∧ scan_matches e prefixes false = true
      ∧ scan_matches e' [] b = true := by
  have hlen : (prefixes.length == 0) = false := by
    cases prefixes with
    | nil => simp [separate_prefixes, tlvWalk] at hsep
    | cons q qs => rfl
  have hm : ∀ mall : Bool, scan_matches e prefixes mall
      = matchesLoop (advertisement_fields e) mall [p1, p2] := by
    intro mall
    simp only [scan_matches, hlen, Bool.false_eq_true, if_false, hsep]
  refine ⟨?_, ?_, by simp [scan_matches]⟩ <;>
  · rw [hm]
    simp only [prefixMatched] at hone
    cases hb1 : (advertisement_fields e).any fun f => p1.isPrefixOf f <;>
      cases hb2 : (advertisement_fields e).any fun f => p2.isPrefixOf f <;>
      simp_all [matchesLoop]

/-- C1 witness: entry with fields `[[1, 6]]`, two prefix records `[1]`
(matching) and `[9, 9]` (not matching). -/
theorem scan_matches_two_prefix_records_witness :
    scan_matches ⟨⟨none, some ['x'], 1⟩, 0, some [2, 1, 6], true, false, []⟩
        [1, 1, 2, 9, 9] true = false
    ∧ scan_matches ⟨⟨none, some ['x'], 1⟩, 0, some [2, 1, 6], true, false, []⟩
        [1, 1, 2, 9, 9] false = true
    ∧ scan_matches ⟨⟨none, some ['x'], 1⟩, 0, some [2, 1, 6], true, false, []⟩
        [] true = true :=
  scan_matches_two_prefix_records _ _ _ [1] [9, 9] _ (by decide) (by decide)

/-- C2 (code evaluation): `UUID._init_from_int` assigns `size = 32` for
*every* integer input — the `size = 16` assignment is immediately overwritten
because the following `if uuid <= 2**32` is not an `elif`. In particular
`UUID(0x180F)` gets size 32, not 16 (its `is_standard_uuid` is still
`True`). -/
theorem uuid_init_from_int_always_32 (n : Int) (h0 : 0 ≤ n) (h1 : n < 2 ^ 16) :
    (uuid_init_from_int n).map Prod.snd = .ok 32
    ∧ uuid_init_from_int 0x180F
        = .ok (BASE_STANDARD_UUID.take 12 ++ [0x0F, 0x18, 0, 0], 32)
    ∧ ((uuid_init_from_int 0x180F).map fun p => uuid_is_standard ⟨p.1, p.2⟩)
        = .ok true := by
  refine ⟨?_, by rfl, by rfl⟩
  unfold uuid_init_from_int standard_uuid128_from_uuid32
  split_ifs with hA hB hC <;> first | rfl | omega

/-- C2 witness: the battery-service short UUID `0x180F`. -/
theorem uuid_init_from_int_always_32_witness :
    (uuid_init_from_int 0x180F).map Prod.snd = .ok 32
    ∧ uuid_init_from_int 0x180F
        = .ok (BASE_STANDARD_UUID.take 12 ++ [0x0F, 0x18, 0, 0], 32)
    ∧ ((uuid_init_from_int 0x180F).map fun p => uuid_is_standard ⟨p.1, p.2⟩)
        = .ok true :=
  uuid_init_from_int_always_32 0x180F (by decide) (by decide)

/-- C3 counterexample: `UUID("180f")` (size 16) and the UUID built from the
full 16-byte standard-base buffer with `0x180F` spliced in (size 128)
compare *unequal* under `__eq__`, contrary to the claim. -/
theorem uuid_eq_16_vs_128_counterexample :
    ((uuid_init_from_str "180f".data).bind fun a =>
      (uuid_init_from_buf
          (BASE_STANDARD_UUID.take 12 ++ [0x0F, 0x18, 0, 0])).map fun b =>
        uuid_eq ⟨a.1, a.2⟩ ⟨b.1, b.2⟩) = .ok false := by rfl

/-- C3 amended: `UUID.__eq__` never converts between size classes — two
UUIDs of different `size` always compare unequal, so a 16-bit UUID and the
equivalent 128-bit UUID are *not* equal. -/
theorem uuid_eq_requires_same_size (a b : UUIDState) (h : a.size ≠ b.size) :
    uuid_eq a b = false := by
  unfold uuid_eq
  split_ifs with h1 h2 h3
  · simp only [Bool.and_eq_true, beq_iff_eq] at h1; omega
  · simp only [Bool.and_eq_true, beq_iff_eq] at h2; omega
  · simp only [Bool.and_eq_true, beq_iff_eq] at h3; omega
  · rfl

/-- C3 amended witness: the two UUIDs of the counterexample. -/
theorem uuid_eq_requires_same_size_witness :
    uuid_eq ⟨BASE_STANDARD_UUID.take 12 ++ [0x0F, 0x18, 0, 0], 16⟩
        ⟨BASE_STANDARD_UUID.take 12 ++ [0x0F, 0x18, 0, 0], 128⟩ = false :=
  uuid_eq_requires_same_size _ _ (by decide)

/-- C7 (code evaluation): `pack_into` writes to the slice
`buffer[offset:byte_size]` — the end bound forgets the offset. At offset 0
the claimed behavior holds (`[15, 24]` lands in the first two bytes and the
rest is unchanged), and a too-small destination raises `IndexError`; but at
offset 2 into a 4-byte buffer the assignment targets the empty slice
`[2:2]`, *inserting* the encoding and growing the buffer to 6 bytes instead
of overwriting bytes 2..3. -/
theorem pack_into_offset_eval :
    ((uuid_init_from_str "180f".data).bind fun p =>
        pack_into ⟨p.1, p.2⟩ [0, 0, 0, 0] 2) = .ok [0, 0, 15, 24, 0, 0]
    ∧ ((uuid_init_from_str "180f".data).bind fun p =>
        pack_into ⟨p.1, p.2⟩ [0, 0, 0, 0] 0) = .ok [15, 24, 0, 0]
    ∧ ((uuid_init_from_str "180f".data).bind fun p =>
        pack_into ⟨p.1, p.2⟩ [0, 0, 0] 2) = .error .indexError := by
  refine ⟨by rfl, by rfl, by rfl⟩

/-- C8: for two Addresses constructed only from string form with equal
address types, `__eq__` is raw case-sensitive string comparison. -/
theorem address_string_eq_case_sensitive (s1 s2 : List Char) (t : Nat)
    (a1 a2 : AddressState)
    (h1 : addressFromString s1 t = .ok a1)
    (h2 : addressFromString s2 t = .ok a2) :
    address_eq a1 a2 = .ok (decide (s1 = s2)) := by
  unfold addressFromString at h1 h2
  by_cases he1 : s1.isEmpty = true
  · rw [if_pos he1] at h1; cases h1
  rw [if_neg he1] at h1
  by_cases ht : t ≤ 3
  case neg => rw [if_neg ht] at h1; cases h1
  rw [if_pos ht] at h1
  by_cases he2 : s2.isEmpty = true
  · rw [if_pos he2] at h2; cases h2
  rw [if_neg he2, if_pos ht] at h2
  injection h1 with h1'
  injection h2 with h2'
  subst h1'; subst h2'
  simp [address_eq, pyTruthy, he1]

/-- C8 witness: same MAC, different hexadecimal letter case — unequal. -/
theorem address_string_eq_case_sensitive_witness :
    address_eq ⟨none, some "AA:BB:CC:DD:EE:FF".data, 1⟩
        ⟨none, some "aa:bb:cc:dd:ee:ff".data, 1⟩ = .ok false := by
  have h := address_string_eq_case_sensitive "AA:BB:CC:DD:EE:FF".data
    "aa:bb:cc:dd:ee:ff".data 1 _ _ rfl rfl
  exact h.trans (congrArg Except.ok (by decide))

/-- C10: `Adapter.connections` returns a fresh immutable tuple snapshot of
`_connections`: the result is a value copy (`tupleVal`, not a reference to
the live list), so the list observed through an earlier result is unchanged
by any later sequence of connect/delete operations, and the result holds no
reference through which the adapter's list could be mutated. -/
theorem connections_snapshot_immune (heap : ConnHeap) (ops : List ConnOp) :
    connections_property heap = .tupleVal heap
    ∧ derefConnections (applyConnOps ops heap) (connections_property heap)
        = derefConnections heap (connections_property heap) :=
  ⟨rfl, rfl⟩

/-- C4 counterexample: a flushed buffer with the LE-meta-event signature but
subevent code `0x03` is *silently dropped* (the parser returns `None`),
not a hard `NotImplemented` failure as claimed. -/
theorem parse_other_subevent_dropped_counterexample :
    parse_hcidump_data [pktSubevent03] [] (-110) true = .ok none := by rfl

/-- C4 amended: for a signature-bearing first line, only a report count
greater than one raises `NotImplementedError`; a subevent code other than
`0x02` makes the parser fall through to its final `return None`, silently
dropping the packet. -/
theorem parse_unsupported_semantics
    (b0 c0 : List Char) (rest rest2 : List (List Char)) (pz : List Byte)
    (m : Int) (a : Bool) (sc nr : Nat)
    (hsig : HCIDUMP_SIG.isPrefixOf b0 = true)
    (hsc : pyIntHex (pySlice b0 11 13) = .ok sc) (hne : sc ≠ 2)
    (hsigc : HCIDUMP_SIG.isPrefixOf c0 = true)
    (hscc : pyIntHex (pySlice c0 11 13) = .ok 2)
    (hnrc : pyIntHex (pySlice c0 14 16) = .ok nr) (hgt : nr > 1) :
    parse_hcidump_data (b0 :: rest) pz m a = .ok none
    ∧ parse_hcidump_data (c0 :: rest2) pz m a = .error .notImplementedError := by
  constructor
  · unfold parse_hcidump_data
    simp [hsig, hsc, hne, except_bind_ok]
  · unfold parse_hcidump_data
    simp [hsigc, hscc, hnrc, hgt, except_bind_ok]

/-- C4 amended witness: the concrete subevent-`03` and multi-report
packets. -/
theorem parse_unsupported_semantics_witness :
    parse_hcidump_data [pktSubevent03] [] (-110) true = .ok none
    ∧ parse_hcidump_data [pktMultiReport] [] (-110) true
        = .error .notImplementedError :=
  parse_unsupported_semantics pktSubevent03 pktMultiReport [] [] [] (-110)
    true 3 2 (by rfl) (by rfl) (by decide) (by rfl) (by rfl) (by rfl) (by decide)

/-- Helper: a packet whose RSSI byte parses to 127 is dropped (returns
`None`) for every threshold — the check precedes all later parsing. -/
theorem parse_hcidump_rssi127_dropped (b0 : List Char) (rest : List (List Char))
    (pz : List Byte) (m : Int) (a : Bool) (nr : Nat)
    (hsig : HCIDUMP_SIG.isPrefixOf b0 = true)
    (hsc : pyIntHex (pySlice b0 11 13) = .ok 2)
    (hnr : pyIntHex (pySlice b0 14 16) = .ok nr) (hle : ¬nr > 1)
    (hrb : pyIntHex
        (pySlice ((b0 :: rest).getLast (List.cons_ne_nil b0 rest)) (-4) (-2))
      = .ok 127) :
    parse_hcidump_data (b0 :: rest) pz m a = .ok none := by
  unfold parse_hcidump_data
  simp [hsig, hsc, hnr, hle, hrb, hci_signed_rssi, except_bind_ok]

/-- C5 counterexample: the captured single-report event with RSSI byte
`0x9A` and `minimum_rssi=-110` does *not* yield a ScanEntry with
`rssi == -100`: the byte is 154 decimal (signed −102), and parsing then
fails with `TypeError` because the source calls
`scan_entry.matches(prefixes, all=False)` while the signature of `matches`
names that parameter `match_all`. -/
theorem parse_rssi_9a_counterexample :
    parse_hcidump_data [pktSubevent02rssi9A] [] (-110) true
      = .error .typeError := by rfl

/-- C5 amended: RSSI byte `0x9A` is 154 decimal, so its signed value is
`154 - 256 = -102` (not −100); with `minimum_rssi=-80` the packet is
dropped (−102 is below the threshold); with `minimum_rssi=-110` the packet
passes the RSSI filter but the parse then fails with `TypeError` (keyword
`all` vs parameter `match_all`) instead of yielding an entry; in general
RSSI bytes above 127 convert to signed by subtracting 256, and an RSSI of
exactly 127 is always dropped. -/
theorem parse_rssi_conversion_semantics (r : Nat) (m : Int) (hr : 127 < r) :
    parse_hcidump_data [pktSubevent02rssi9A] [] (-80) true = .ok none
    ∧ parse_hcidump_data [pktSubevent02rssi9A] [] (-110) true
        = .error .typeError
    ∧ hci_signed_rssi 154 = -102
    ∧ hci_signed_rssi r = (r : Int) - 256
    ∧ parse_hcidump_data [pktRssi7F] [] m true = .ok none := by
  refine ⟨by rfl, by rfl, by rfl, ?_, ?_⟩
  · unfold hci_signed_rssi
    rw [if_pos hr]
    ring
  · exact parse_hcidump_rssi127_dropped pktRssi7F [] [] m true 1
      (by rfl) (by rfl) (by rfl) (by decide) (by rfl)

/-- C5 amended witness: RSSI byte 154 (= `0x9A`), threshold 0. -/
theorem parse_rssi_conversion_semantics_witness :
    parse_hcidump_data [pktSubevent02rssi9A] [] (-80) true = .ok none
    ∧ parse_hcidump_data [pktSubevent02rssi9A] [] (-110) true
        = .error .typeError
    ∧ hci_signed_rssi 154 = -102
    ∧ hci_signed_rssi 154 = (154 : Int) - 256
    ∧ parse_hcidump_data [pktRssi7F] [] 0 true = .ok none :=
  parse_rssi_conversion_semantics 154 0 (by decide)

/-- Helper: `dictSetStr` only ever adds string keys. -/
theorem dictSetStr_allStr (cache : DeviceCache) (s : List Char) (d : BLEDevice)
    (h : allStrKeys cache) : allStrKeys (dictSetStr cache s d) := by
  induction cache with
  | nil =>
    intro kv hkv
    simp only [dictSetStr, List.mem_singleton] at hkv
    exact ⟨s, by rw [hkv]⟩
  | cons kv0 rest ih =>
    obtain ⟨k, v⟩ := kv0
    intro kv hkv
    simp only [dictSetStr] at hkv
    by_cases hk : (k == PyKey.str s) = true
    · rw [if_pos hk] at hkv
      rcases List.mem_cons.mp hkv with hkv | hkv
      · exact ⟨s, by rw [hkv]⟩
      · exact h kv (List.mem_cons_of_mem _ hkv)
    · rw [if_neg hk] at hkv
      rcases List.mem_cons.mp hkv with hkv | hkv
      · exact h kv (by rw [hkv]; exact List.mem_cons_self _ _)
      · exact ih (fun kv' hkv' => h kv' (List.mem_cons_of_mem _ hkv')) kv hkv

/-- Helper: every cache built by `start_scan`'s caching has only string
keys. -/
theorem foldl_cache_allStr (devs : List BLEDevice) (cache : DeviceCache)
    (h : allStrKeys cache) : allStrKeys (devs.foldl cache_device cache) := by
  induction devs generalizing cache with
  | nil => exact h
  | cons d ds ih => exact ih _ (dictSetStr_allStr _ _ _ h)

/-- Helper: probing an all-string-keyed dictionary with an `Address` key
never finds anything (`Address == str` is always `False`). -/
theorem dictGet_addr_none (cache : DeviceCache) (a : AddressState)
    (h : allStrKeys cache) : dictGet cache (.addr a) = .ok none := by
  induction cache with
  | nil => rfl
  | cons kv rest ih =>
    obtain ⟨k, v⟩ := kv
    obtain ⟨s, hs⟩ := h (k, v) (List.mem_cons_self _ _)
    simp only at hs
    subst hs
    simp only [dictGet, pyKeyEq]
    exact ih (fun kv' hkv' => h kv' (List.mem_cons_of_mem _ hkv'))

/-- C6 (code evaluation): `_cache_device` keys the device cache by the
bleak device's address *string*, while `_cached_device` probes it with a
`_bleio.Address` object; a string key never equals an `Address`, so for
every cache built by the most recent scan the lookup misses and
`_connect_async` hands `BleakClient` the plain address string (triggering a
fresh re-discovery) instead of the cached record. -/
theorem cached_device_lookup_always_misses (devs : List BLEDevice)
    (a : AddressState) :
    cached_device (scanCache devs) a = .ok none
    ∧ connect_client_arg (scanCache devs) a
        = (string_prop a).map BleakClientArg.addrString := by
  have hall : allStrKeys (scanCache devs) :=
    foldl_cache_allStr devs [] (fun kv hkv => absurd hkv (List.not_mem_nil kv))
  have hget : dictGet (scanCache devs) (.addr a) = .ok none :=
    dictGet_addr_none _ _ hall
  refine ⟨hget, ?_⟩
  unfold connect_client_arg cached_device
  unfold cached_device at hget
  rw [hget]
  rfl

/-- Helper: a state with a cached probe result, no child process and
cleared flags is a fixed point of `stop_scan`. -/
theorem stop_scan_fixed (env : Env) (c : Bool) (bb : Option (List Char)) :
    stop_scan env ⟨some c, bb, none, false, false⟩
      = .ok ⟨some c, bb, none, false, false⟩ := by
  cases c <;> rfl

/-- C9 counterexample: `stop_scan` is not total — called first on an
adapter whose `ble_backend` forces `"hcitool"` while the probe fails, the
`_use_hcitool` evaluation inside it raises `EnvironmentError`. -/
theorem stop_scan_env_error_counterexample :
    stop_scan ⟨true, false⟩ ⟨none, some "hcitool".data, none, false, false⟩
      = .error .environmentError := by rfl

/-- C9 amended: whenever `stop_scan` returns normally (the first
`_use_hcitool` evaluation can instead raise a backend-configuration
error), the scanning-in-progress flag is `False` and the scanner and
hcitool handles are cleared, and an immediate second `stop_scan` returns
with the state unchanged. The hypothesis is the reachability invariant
that a live hcitool child process implies the cached probe result is
positive (the process is only spawned on the hcitool path). -/
theorem stop_scan_success_clears_and_idempotent (env : Env)
    (s s' : AdapterScanState)
    (hinv : s.hcitool.isSome = true → s.hcitoolIsUsable = some true)
    (h : stop_scan env s = .ok s') :
    s'.scanningInProgress = false ∧ s'.scanner = false ∧ s'.hcitool = none
      ∧ stop_scan env s' = .ok s' := by
  obtain ⟨u, bb, ht, sip, sc⟩ := s
  cases u with
  | some b =>
    cases ht with
    | none =>
      cases b with
      | false =>
        have hred : stop_scan env ⟨some false, bb, none, sip, sc⟩
            = .ok ⟨some false, bb, none, false, false⟩ := rfl
        rw [hred] at h
        injection h with h'
        subst h'
        exact ⟨rfl, rfl, rfl, stop_scan_fixed env false bb⟩
      | true =>
        have hred : stop_scan env ⟨some true, bb, none, sip, sc⟩
            = .ok ⟨some true, bb, none, false, false⟩ := rfl
        rw [hred] at h
        injection h with h'
        subst h'
        exact ⟨rfl, rfl, rfl, stop_scan_fixed env true bb⟩
    | some p =>
      have hb : b = true := by
        have hx := hinv rfl
        simp only at hx
        exact Option.some.inj hx
      subst hb
      have hred : stop_scan env ⟨some true, bb, some p, sip, sc⟩
          = .ok ⟨some true, bb, none, false, false⟩ := rfl
      rw [hred] at h
      injection h with h'
      subst h'
      exact ⟨rfl, rfl, rfl, stop_scan_fixed env true bb⟩
  | none =>
    cases ht with
    | some p => exact absurd (hinv rfl) (by simp)
    | none =>
      obtain ⟨eL, eP⟩ := env
      cases eL <;> cases eP <;>
        · unfold stop_scan use_hcitool at h
          dsimp only at h
          split_ifs at h <;> injection h <;> subst_vars <;>
            exact ⟨rfl, rfl, rfl, stop_scan_fixed _ _ _⟩

/-- C9 amended witness: a fresh adapter (no probe yet, no backend forced,
scan flags set) on a non-Linux host. -/
theorem stop_scan_success_clears_and_idempotent_witness :
    (⟨some false, none, none, false, false⟩ : AdapterScanState).scanningInProgress
        = false
    ∧ (⟨some false, none, none, false, false⟩ : AdapterScanState).scanner = false
    ∧ (⟨some false, none, none, false, false⟩ : AdapterScanState).hcitool = none
    ∧ stop_scan ⟨false, false⟩ ⟨some false, none, none, false, false⟩
        = .ok ⟨some false, none, none, false, false⟩ :=
  stop_scan_success_clears_and_idempotent ⟨false, false⟩
    ⟨none, none, none, true, true⟩ ⟨some false, none, none, false, false⟩
    (by simp) (by rfl)

end Bleio
